import Mathlib

/-!
Verification development for the connection-resolution subsystem
(`src/util/connections.py` of the `arm` repository).

The Python module is shallowly embedded: pure helpers become Lean
functions, the `ConnectionResolver` thread becomes an explicit state
record with a step function `ConnectionResolver.runIteration` (one pass
of the `while not self._halt` loop), and the module-level registry
becomes explicit list-passing.  Wall-clock readings and the result of
the external `sysTools.call` collaborator are inputs to each step.
Python floats are modelled as rationals, Python exceptions as explicit
result constructors (`IOError` vs any other uncaught exception).
-/

/-! ### Resolver kind enumeration

Python: `CMD_NETSTAT, CMD_SOCKSTAT, CMD_LSOF, CMD_SS, CMD_BSD_SOCKSTAT,
CMD_BSD_PROCSTAT = range(1, 7)` -/

def CMD_NETSTAT : Nat := 1
def CMD_SOCKSTAT : Nat := 2
def CMD_LSOF : Nat := 3
def CMD_SS : Nat := 4
def CMD_BSD_SOCKSTAT : Nat := 5
def CMD_BSD_PROCSTAT : Nat := 6

/-- Python dict `CMD_STR` (labels used for logging and for the
`sysTools.isAvailable` check); keys outside the dict would be a
`KeyError`, modelled by an empty string which no caller reaches. -/
def CMD_STR : Nat → String
  | 1 => "netstat"
  | 2 => "sockstat"
  | 3 => "lsof"
  | 4 => "ss"
  | 5 => "sockstat (bsd)"
  | 6 => "procstat (bsd)"
  | _ => ""

/-- Python: `RECREATE_HALTED_RESOLVERS = False` -/
def RECREATE_HALTED_RESOLVERS : Bool := false

/-- Python: `RESOLVER_FAILURE_TOLERANCE = 3` -/
def RESOLVER_FAILURE_TOLERANCE : Nat := 3

/-! ### getResolverCommand

Python template strings, with `%s` substitution spelled out.  Note the
argument order of `RUN_NETSTAT % (processPid, processName)` (pid first).
A raised `ValueError` is the `.error` constructor. -/

def getResolverCommand (resolutionCmd : Nat) (processName : String)
    (processPid : String) : Except String String :=
  if processPid = "" ∧ resolutionCmd = CMD_BSD_PROCSTAT then
    Except.error ("procstat resolution requires a pid")
  else
    -- if the pid was undefined then match any in that field
    let pid := if processPid = "" then "[0-9]*" else processPid
    if resolutionCmd = CMD_NETSTAT then
      Except.ok ("netstat -np | grep \"ESTABLISHED " ++ pid ++ "/" ++ processName ++ "\"")
    else if resolutionCmd = CMD_SS then
      Except.ok ("ss -nptu | grep \"ESTAB.*\\\"" ++ processName ++ "\\\"," ++ pid ++ "\"")
    else if resolutionCmd = CMD_LSOF then
      Except.ok ("lsof -nPi | egrep \"^" ++ processName ++ "\\s*" ++ pid ++ ".*((UDP.*)|(\\(ESTABLISHED\\)))\"")
    else if resolutionCmd = CMD_SOCKSTAT then
      Except.ok ("sockstat | egrep \"" ++ processName ++ "\\s*" ++ pid ++ ".*ESTABLISHED\"")
    else if resolutionCmd = CMD_BSD_SOCKSTAT then
      Except.ok ("sockstat -4c | grep '" ++ processName ++ " *" ++ pid ++ "'")
    else if resolutionCmd = CMD_BSD_PROCSTAT then
      Except.ok ("procstat -f " ++ pid ++ " | grep TCP | grep -v 0.0.0.0:0")
    else
      Except.error ("Unrecognized resolution type: " ++ toString resolutionCmd)

/-! ### String splitting primitives (Python `str.split`) -/

/-- Split a character list at every separator character, keeping empty
pieces — the semantics of Python `s.split(":")` for one-char separators. -/
def splitCharAux (p : Char → Bool) : List Char → List Char → List (List Char)
  | [], acc => [acc.reverse]
  | c :: cs, acc =>
    if p c then acc.reverse :: splitCharAux p cs []
    else splitCharAux p cs (c :: acc)

def splitChar (p : Char → Bool) (s : String) : List String :=
  (splitCharAux p s.toList []).map List.asString

/-- Split at every occurrence of the two-character separator `->`
(Python `s.split("->")`, used by the lsof parser). -/
def splitArrowAux : List Char → List Char → List (List Char)
  | [], acc => [acc.reverse]
  | '-' :: '>' :: cs, acc => acc.reverse :: splitArrowAux cs []
  | c :: cs, acc => splitArrowAux cs (c :: acc)

def splitArrow (s : String) : List String :=
  (splitArrowAux s.toList []).map List.asString

def isPySpace (c : Char) : Bool :=
  c == ' ' || c == '\t' || c == '\n' || c == '\r'

/-- Python `line.split()`: split on whitespace runs, dropping empties. -/
def pySplit (s : String) : List String :=
  (splitChar isPySpace s).filter (fun t => t ≠ "")

/-- Python `a, b = s.split(":")`: succeeds only with exactly two pieces
(otherwise a ValueError — an uncaught exception). -/
def splitPairColon (s : String) : Option (String × String) :=
  match splitChar (fun c => c == ':') s with
  | [a, b] => some (a, b)
  | _ => none

/-! ### Line parsing (body of the loop in module-level `getConnections`) -/

/-- A connection, `(local_ipAddr, local_port, foreign_ipAddr, foreign_port)`. -/
abbrev ConnTuple := String × String × String × String

/-- Extracts from the tokens of one output line the local/foreign
address pairs at the kind's column positions.  `none` models the
uncaught IndexError (token missing) or ValueError (unpack mismatch)
that the Python body would raise. -/
def parseConnLine (resolutionCmd : Nat) (line : String) : Option ConnTuple :=
  let comp := pySplit line
  let two : Nat → Nat → Option ConnTuple := fun i j =>
    match comp[i]?, comp[j]? with
    | some a, some b =>
      match splitPairColon a, splitPairColon b with
      | some (localIp, localPort), some (foreignIp, foreignPort) =>
        some (localIp, localPort, foreignIp, foreignPort)
      | _, _ => none
    | _, _ => none
  if resolutionCmd = CMD_NETSTAT then two 3 4
  else if resolutionCmd = CMD_SS then two 4 5
  else if resolutionCmd = CMD_LSOF then
    match comp[8]? with
    | none => none
    | some t =>
      match splitArrow t with
      | [localStr, foreignStr] =>
        match splitPairColon localStr, splitPairColon foreignStr with
        | some (localIp, localPort), some (foreignIp, foreignPort) =>
          some (localIp, localPort, foreignIp, foreignPort)
        | _, _ => none
      | _ => none
  else if resolutionCmd = CMD_SOCKSTAT then two 4 5
  else if resolutionCmd = CMD_BSD_SOCKSTAT then two 5 6
  else if resolutionCmd = CMD_BSD_PROCSTAT then two 9 10
  else none

/-- Outcome of one module-level `getConnections(...)` call as seen by
the resolver loop's `try`/`except IOError` block. -/
inductive CallResult where
  /-- returned normally with a parsed tuple list -/
  | ok (conns : List ConnTuple) : CallResult
  /-- raised `IOError` (caught by the loop's handler) -/
  | ioError : CallResult
  /-- raised any other exception (IndexError / ValueError), which the
  loop does not catch -/
  | crash : CallResult
deriving DecidableEq, Repr

/-- The `for line in results` loop: appends parsed tuples in order; the
first unparsable line raises, aborting the whole call. -/
def parseLines (resolutionCmd : Nat) : List String → List ConnTuple → CallResult
  | [], acc => CallResult.ok acc.reverse
  | line :: rest, acc =>
    match parseConnLine resolutionCmd line with
    | none => CallResult.crash
    | some t => parseLines resolutionCmd rest (t :: acc)

/-- Module-level `getConnections(resolutionCmd, processName, processPid)`.
`execResult` is the value of `sysTools.call(cmd)` (an input from the
external collaborator): `none` means the call raised an IOError. -/
def getConnections (resolutionCmd : Nat) (processName processPid : String)
    (execResult : Option (List String)) : CallResult :=
  match getResolverCommand resolutionCmd processName processPid with
  | Except.error _ => CallResult.crash   -- ValueError, not an IOError
  | Except.ok _ =>
    match execResult with
    | none => CallResult.ioError
    | some results =>
      if results = [] then CallResult.ioError  -- "No results found using: ..."
      else parseLines resolutionCmd results []

/-! ### getSystemResolvers -/

def getSystemResolvers (osType : String) : List Nat :=
  if osType = "FreeBSD" then [CMD_BSD_SOCKSTAT, CMD_BSD_PROCSTAT, CMD_LSOF]
  else [CMD_NETSTAT, CMD_SOCKSTAT, CMD_LSOF, CMD_SS]

/-! ### ConnectionResolver state -/

structure ConnectionResolver where
  processName : String
  processPid : String
  resolveRate : Option ℚ
  defaultRate : ℚ
  lastLookup : ℚ
  overwriteResolver : Option Nat
  defaultResolver : Option Nat
  resolverOptions : List Nat
  connections : List ConnTuple
  isPaused : Bool
  halt : Bool
  subsiquentFailures : Nat
  resolverBlacklist : List Nat
  rateThresholdBroken : Nat
deriving DecidableEq, Repr

/-- `__init__` loop choosing the default resolver: the first option
whose label is reported available, left as `CMD_NETSTAT` when none are. -/
def chooseDefaultResolver (available : String → Bool) : List Nat → Nat
  | [] => CMD_NETSTAT
  | r :: rest =>
    if available (CMD_STR r) then r else chooseDefaultResolver available rest

/-- `ConnectionResolver.__init__`; `available` abstracts the external
`sysTools.isAvailable` collaborator. -/
def initState (processName processPid : String) (resolveRate : Option ℚ)
    (osType : String) (available : String → Bool) : ConnectionResolver :=
  { processName := processName
    processPid := processPid
    resolveRate := resolveRate
    defaultRate := 5            -- CONFIG["queries.connections.minRate"]
    lastLookup := -1
    overwriteResolver := none
    defaultResolver := some (chooseDefaultResolver available (getSystemResolvers osType))
    resolverOptions := getSystemResolvers osType
    connections := []
    isPaused := false
    halt := false
    subsiquentFailures := 0
    resolverBlacklist := []
    rateThresholdBroken := 0 }

/-- `minWait = self.resolveRate if self.resolveRate else self.defaultRate`
(Python truthiness: `None` and `0` both fall back to the default). -/
def ConnectionResolver.minWait (self : ConnectionResolver) : ℚ :=
  match self.resolveRate with
  | some r => if r = 0 then self.defaultRate else r
  | none => self.defaultRate

/-- Success-path rate adaptation, lines 344-353 of the source:
```
newMinDefaultRate = 100 * lookupTime
if self.defaultRate < newMinDefaultRate:
  if self._rateThresholdBroken >= 3:
    self.defaultRate = newMinDefaultRate + 0.5
  else: self._rateThresholdBroken += 1
else: self._rateThresholdBroken = 0
```
Returns the new `(defaultRate, rateThresholdBroken)`. -/
def rateUpdate (defaultRate : ℚ) (rateThresholdBroken : Nat) (lookupTime : ℚ) :
    ℚ × Nat :=
  let newMinDefaultRate := 100 * lookupTime
  if defaultRate < newMinDefaultRate then
    if 3 ≤ rateThresholdBroken then (newMinDefaultRate + 1/2, rateThresholdBroken)
    else (defaultRate, rateThresholdBroken + 1)
  else (defaultRate, 0)

/-- `for r in self.resolverOptions: if not r in self._resolverBlacklist:
newResolver = r; break` -/
def pickNewResolver (blacklist : List Nat) : List Nat → Option Nat
  | [] => none
  | r :: rest =>
    if blacklist.contains r then pickNewResolver blacklist rest else some r

/-- The `except IOError` branch taken on the default path (`isDefault`),
with `r` the resolver that was attempted. -/
def ConnectionResolver.handleDefaultFailure (self : ConnectionResolver)
    (r : Nat) : ConnectionResolver :=
  let fails := self.subsiquentFailures + 1
  if RESOLVER_FAILURE_TOLERANCE ≤ fails then
    let blacklist := self.resolverBlacklist ++ [r]
    { self with
        subsiquentFailures := 0
        resolverBlacklist := blacklist
        defaultResolver := pickNewResolver blacklist self.resolverOptions }
  else { self with subsiquentFailures := fails }

/-- The loop-external inputs of one iteration: two wall-clock readings,
the measured lookup duration, and the external command result. -/
structure IterInput where
  now : ℚ                              -- time.time() at the loop top
  duration : ℚ                         -- measured lookupTime
  execResult : Option (List String)    -- sysTools.call result
  endTime : ℚ                          -- time.time() in the finally block

/-- Result of one pass through the `while` body. -/
structure StepOut where
  state : ConnectionResolver
  /-- whether a command execution (`getConnections` call) was made -/
  executed : Bool
  /-- whether an uncaught exception propagated, killing the thread -/
  crashed : Bool
  /-- `some t` when the iteration took the sleep branch for `t` seconds -/
  sleptFor : Option ℚ

/-- One iteration of `ConnectionResolver.run`'s `while not self._halt`
loop (a halted resolver performs no iteration: identity). -/
def ConnectionResolver.runIteration (self : ConnectionResolver)
    (inp : IterInput) : StepOut :=
  if self.halt then ⟨self, false, false, none⟩
  else
    let minWait := self.minWait
    let timeSinceReset := inp.now - self.lastLookup
    if self.isPaused = true ∨ timeSinceReset < minWait then
      ⟨self, false, false, some (max (1/5) (minWait - timeSinceReset))⟩
    else
      match (if self.overwriteResolver.isNone then self.defaultResolver
             else self.overwriteResolver) with
      | none =>
        -- nothing to resolve with: record time, avoid a busy wait
        ⟨{ self with lastLookup := inp.now }, false, false, none⟩
      | some r =>
        match getConnections r self.processName self.processPid inp.execResult with
        | CallResult.ok conns =>
          let rs := rateUpdate self.defaultRate self.rateThresholdBroken inp.duration
          let s1 := { self with
                        connections := conns
                        defaultRate := rs.1
                        rateThresholdBroken := rs.2 }
          let s2 := if self.overwriteResolver.isNone then
                      { s1 with subsiquentFailures := 0 }
                    else s1
          ⟨{ s2 with lastLookup := inp.endTime }, true, false, none⟩
        | CallResult.ioError =>
          let s1 := if self.overwriteResolver.isNone then
                      self.handleDefaultFailure r
                    else self
          ⟨{ s1 with lastLookup := inp.endTime }, true, false, none⟩
        | CallResult.crash =>
          -- finally block still updates the timestamp, then the
          -- exception propagates and the thread dies
          ⟨{ self with lastLookup := inp.endTime }, true, true, none⟩

/-- Repeated loop iterations; a crash ends the thread. -/
def runTrace (self : ConnectionResolver) : List IterInput → ConnectionResolver
  | [] => self
  | inp :: rest =>
    let out := self.runIteration inp
    if out.crashed then out.state else runTrace out.state rest

/-- Method `getConnections` of the resolver (cached results; empty once
halted).  The source returns `list(self._connections)`, a fresh copy. -/
def ConnectionResolver.getConnections (self : ConnectionResolver) :
    List ConnTuple :=
  if self.halt then [] else self.connections

/-- Method `setPaused`.  The second component records whether the
condition variable was notified: the source only writes the flag
(`self._isPaused = isPause`), it never touches `self._cond`. -/
def ConnectionResolver.setPaused (self : ConnectionResolver) (isPause : Bool) :
    ConnectionResolver × Bool :=
  if isPause = self.isPaused then (self, false)
  else ({ self with isPaused := isPause }, false)

/-- Method `stop`: sets the halt flag and notifies the condition
variable (`self._cond.notifyAll()`), waking a sleeping loop. -/
def ConnectionResolver.stop (self : ConnectionResolver) :
    ConnectionResolver × Bool :=
  ({ self with halt := true }, true)

/-! ### The registry (module-level `RESOLVERS` plus `getResolver`) -/

/-- One registry slot; `uid` stands for the Python object identity of
the `ConnectionResolver` instance held there. -/
structure ResolverEntry where
  processName : String
  processPid : String
  halt : Bool
  uid : Nat
deriving DecidableEq, Repr

/-- `resolver.processName == processName and (not processPid or
resolver.processPid == processPid)` -/
def resolverMatches (processName processPid : String) (r : ResolverEntry) : Bool :=
  (r.processName == processName) && (processPid == "" || r.processPid == processPid)

/-- The scan of `getResolver`'s `for` loop: the first entry it would
`return`.  A matching halted entry is skipped (recorded as a reuse
candidate instead) only when recreation is enabled. -/
def findLoop (processName processPid : String) (recreate : Bool) :
    List ResolverEntry → Option ResolverEntry
  | [] => none
  | r :: rest =>
    if resolverMatches processName processPid r then
      if r.halt && recreate then findLoop processName processPid recreate rest
      else some r
    else findLoop processName processPid recreate rest

/-- Replacement at `haltedIndex` — the LAST matching halted slot seen by
the scan; `none` when no matching halted entry exists. -/
def replaceLastHalted (processName processPid : String) (newR : ResolverEntry) :
    List ResolverEntry → Option (List ResolverEntry)
  | [] => none
  | r :: rest =>
    match replaceLastHalted processName processPid newR rest with
    | some rest' => some (r :: rest')
    | none =>
      if resolverMatches processName processPid r && r.halt then
        some (newR :: rest)
      else none

/-- Module-level `getResolver(processName, processPid)`: returns the
matched or newly created (and started) resolver together with the
updated `RESOLVERS` list.  `fresh` is the identity of the instance a
`ConnectionResolver(...)` construction would produce. -/
def getResolver (processName processPid : String) (recreate : Bool)
    (fresh : Nat) (reg : List ResolverEntry) :
    ResolverEntry × List ResolverEntry :=
  match findLoop processName processPid recreate reg with
  | some r => (r, reg)
  | none =>
    let newR : ResolverEntry :=
      { processName := processName, processPid := processPid,
        halt := false, uid := fresh }
    match (if recreate then replaceLastHalted processName processPid newR reg
           else none) with
    | some reg' => (newR, reg')
    | none => (newR, reg ++ [newR])

/-- `stop()` called on the instance with identity `uid` (the halt flag
of that shared object becomes visible through every slot holding it). -/
def haltResolver (uid : Nat) (reg : List ResolverEntry) : List ResolverEntry :=
  reg.map (fun r => if r.uid = uid then { r with halt := true } else r)

/-- A concrete resolver state used to instantiate the general theorems
(the state a fresh Linux-side `ConnectionResolver("tor", "123")` holds
once `__init__` finished with netstat available). -/
def baseResolver : ConnectionResolver :=
  { processName := "tor"
    processPid := "123"
    resolveRate := none
    defaultRate := 5
    lastLookup := 0
    overwriteResolver := none
    defaultResolver := some CMD_NETSTAT
    resolverOptions := [CMD_NETSTAT, CMD_SOCKSTAT, CMD_LSOF, CMD_SS]
    connections := []
    isPaused := false
    halt := false
    subsiquentFailures := 0
    resolverBlacklist := []
    rateThresholdBroken := 0 }

/-- A sample `netstat` output line (from the source's format comment). -/
def sampleNetstatLine : String :=
  "tcp  0  0  127.0.0.1:9051  127.0.0.1:53308  ESTABLISHED 9912/tor"

/-- The tuple the sample line denotes. -/
def sampleTuple : ConnTuple := ("127.0.0.1", "9051", "127.0.0.1", "53308")

/-- `baseResolver` after every Linux catalog kind has been blacklisted
and the default selection has become none. -/
def exhaustedResolver : ConnectionResolver :=
  { baseResolver with
      defaultResolver := none
      resolverBlacklist := [CMD_NETSTAT, CMD_SOCKSTAT, CMD_LSOF, CMD_SS] }

/-! ## Helper lemmas -/

theorem chooseDefaultResolver_eq_find (available : String → Bool) (l : List Nat) :
    chooseDefaultResolver available l =
      ((l.find? (fun r => available (CMD_STR r))).getD CMD_NETSTAT) := by
  induction l with
  | nil => rfl
  | cons r rest ih =>
    by_cases h : available (CMD_STR r)
    · simp [chooseDefaultResolver, List.find?_cons, h]
    · simp [chooseDefaultResolver, List.find?_cons, h, ih]

/-! ## Claim C7 -/

/-- Claim C7 (confirmed): a newly constructed resolver's default kind is
the first kind of the operating system's resolver-option list whose
executable is reported present on the search path, and when none are
present it falls back to netstat — the first entry of the catalog. -/
theorem claim7_default_choice (processName processPid : String)
    (resolveRate : Option ℚ) (osType : String) (available : String → Bool) :
    (initState processName processPid resolveRate osType available).defaultResolver =
      some (((getSystemResolvers osType).find? (fun r => available (CMD_STR r))).getD CMD_NETSTAT) ∧
    List.head? [CMD_NETSTAT, CMD_SS, CMD_LSOF, CMD_SOCKSTAT, CMD_BSD_SOCKSTAT, CMD_BSD_PROCSTAT] =
      some CMD_NETSTAT := by
  constructor
  · simp [initState, chooseDefaultResolver_eq_find]
  · rfl

/-! ## Claim C6 -/

/-- Claim C6 (confirmed): for every catalog kind except bsd-procstat,
the exact documented command string is produced with name and pid
substituted; an empty pid is substituted by the numeric any-pid wildcard;
bsd-procstat with an empty pid and any unrecognized kind raise a
ValueError instead of producing a command. -/
theorem claim6_resolver_commands (processName processPid : String) :
    (processPid ≠ "" →
      getResolverCommand CMD_NETSTAT processName processPid =
        Except.ok ("netstat -np | grep \"ESTABLISHED " ++ processPid ++ "/" ++ processName ++ "\"") ∧
      getResolverCommand CMD_SS processName processPid =
        Except.ok ("ss -nptu | grep \"ESTAB.*\\\"" ++ processName ++ "\\\"," ++ processPid ++ "\"") ∧
      getResolverCommand CMD_LSOF processName processPid =
        Except.ok ("lsof -nPi | egrep \"^" ++ processName ++ "\\s*" ++ processPid ++ ".*((UDP.*)|(\\(ESTABLISHED\\)))\"") ∧
      getResolverCommand CMD_SOCKSTAT processName processPid =
        Except.ok ("sockstat | egrep \"" ++ processName ++ "\\s*" ++ processPid ++ ".*ESTABLISHED\"") ∧
      getResolverCommand CMD_BSD_SOCKSTAT processName processPid =
        Except.ok ("sockstat -4c | grep '" ++ processName ++ " *" ++ processPid ++ "'") ∧
      getResolverCommand CMD_BSD_PROCSTAT processName processPid =
        Except.ok ("procstat -f " ++ processPid ++ " | grep TCP | grep -v 0.0.0.0:0")) ∧
    (getResolverCommand CMD_NETSTAT processName "" =
        Except.ok ("netstat -np | grep \"ESTABLISHED [0-9]*/" ++ processName ++ "\"") ∧
      getResolverCommand CMD_SS processName "" =
        Except.ok ("ss -nptu | grep \"ESTAB.*\\\"" ++ processName ++ "\\\",[0-9]*\"") ∧
      getResolverCommand CMD_LSOF processName "" =
        Except.ok ("lsof -nPi | egrep \"^" ++ processName ++ "\\s*[0-9]*.*((UDP.*)|(\\(ESTABLISHED\\)))\"") ∧
      getResolverCommand CMD_SOCKSTAT processName "" =
        Except.ok ("sockstat | egrep \"" ++ processName ++ "\\s*[0-9]*.*ESTABLISHED\"") ∧
      getResolverCommand CMD_BSD_SOCKSTAT processName "" =
        Except.ok ("sockstat -4c | grep '" ++ processName ++ " *[0-9]*'")) ∧
    getResolverCommand CMD_BSD_PROCSTAT processName "" =
      Except.error ("procstat resolution requires a pid") ∧
    (∀ c : Nat,
      c ∉ [CMD_NETSTAT, CMD_SOCKSTAT, CMD_LSOF, CMD_SS, CMD_BSD_SOCKSTAT, CMD_BSD_PROCSTAT] →
      getResolverCommand c processName processPid =
        Except.error ("Unrecognized resolution type: " ++ toString c)) := by
  refine ⟨fun h => ?_, ?_, ?_, fun c hc => ?_⟩
  · refine ⟨?_, ?_, ?_, ?_, ?_, ?_⟩ <;>
      simp [getResolverCommand, CMD_NETSTAT, CMD_SOCKSTAT, CMD_LSOF, CMD_SS,
            CMD_BSD_SOCKSTAT, CMD_BSD_PROCSTAT, h]
  · refine ⟨?_, ?_, ?_, ?_, ?_⟩ <;>
      simp [getResolverCommand, CMD_NETSTAT, CMD_SOCKSTAT, CMD_LSOF, CMD_SS,
            CMD_BSD_SOCKSTAT, CMD_BSD_PROCSTAT, String.append_assoc]
  · rfl
  · simp only [List.mem_cons, List.not_mem_nil, or_false, not_or,
               CMD_NETSTAT, CMD_SOCKSTAT, CMD_LSOF, CMD_SS,
               CMD_BSD_SOCKSTAT, CMD_BSD_PROCSTAT] at hc
    obtain ⟨h1, h2, h3, h4, h5, h6⟩ := hc
    simp [getResolverCommand, CMD_NETSTAT, CMD_SOCKSTAT, CMD_LSOF, CMD_SS,
          CMD_BSD_SOCKSTAT, CMD_BSD_PROCSTAT, h1, h2, h3, h4, h5, h6]

/-- Witness for claim C6 at concrete inputs. -/
theorem claim6_witness :
    getResolverCommand CMD_NETSTAT "tor" "123" =
      Except.ok ("netstat -np | grep \"ESTABLISHED 123/tor\"") ∧
    getResolverCommand CMD_NETSTAT "tor" "" =
      Except.ok ("netstat -np | grep \"ESTABLISHED [0-9]*/tor\"") ∧
    getResolverCommand CMD_BSD_PROCSTAT "tor" "" =
      Except.error ("procstat resolution requires a pid") ∧
    getResolverCommand 7 "tor" "123" =
      Except.error ("Unrecognized resolution type: 7") := by
  have h := claim6_resolver_commands "tor" "123"
  have h0 := claim6_resolver_commands "tor" ""
  exact ⟨(h.1 (by decide)).1, h0.2.1.1, h.2.2.1, h.2.2.2 7 (by decide)⟩

/-! ## Claim C8 -/

/-- Claim C8 (confirmed): the resolver's getConnections method returns
an empty list whenever the resolver is halted — even after the cache was
populated — and otherwise exactly the cached list; halting via stop
makes every later read empty. -/
theorem claim8_getConnections_method (self : ConnectionResolver) :
    (self.halt = true → self.getConnections = []) ∧
    (self.halt = false → self.getConnections = self.connections) ∧
    ((self.stop).1.getConnections = []) := by
  refine ⟨fun h => ?_, fun h => ?_, ?_⟩ <;>
    simp [ConnectionResolver.getConnections, ConnectionResolver.stop, *]

/-- Witness for claim C8: a populated cache reads back while live and
reads empty once halted. -/
theorem claim8_witness :
    ({ baseResolver with connections := [sampleTuple] } : ConnectionResolver).getConnections =
      [sampleTuple] ∧
    ({ baseResolver with connections := [sampleTuple], halt := true } : ConnectionResolver).getConnections =
      [] := by
  have h1 := claim8_getConnections_method { baseResolver with connections := [sampleTuple] }
  have h2 := claim8_getConnections_method { baseResolver with connections := [sampleTuple], halt := true }
  exact ⟨h1.2.1 rfl, h2.1 rfl⟩

/-! ## Claim C1 -/

/-- Iterated success-path rate adaptation with a constant measured
duration (cycle after cycle of successful lookups). -/
def rateIter (d : ℚ) : Nat → ℚ × Nat → ℚ × Nat
  | 0, p => p
  | n + 1, p => rateIter d n (rateUpdate p.1 p.2 d)

/-- Claim C1 counterexample: with the default rate 5 and a fresh streak,
three consecutive successful cycles of duration 1 (each with
100 × 1 > 5) leave the rate at 5 with the streak at 3 — the rate is not
raised to 100 × 1 + 0.5 and the streak is not reset, contradicting the
claim that 3 consecutive exceeding cycles raise the rate. -/
theorem claim1_counterexample :
    rateUpdate 5 0 1 = (5, 1) ∧
    rateUpdate 5 1 1 = (5, 2) ∧
    rateUpdate 5 2 1 = (5, 3) ∧
    (5 : ℚ) ≠ 100 * 1 + 1 / 2 ∧
    (3 : Nat) ≠ 0 := by
  refine ⟨?_, ?_, ?_, by norm_num, by norm_num⟩ <;> norm_num [rateUpdate]

/-- Claim C1 (corrected): an exceeding successful cycle raises the rate
to duration × 100 + 0.5 only when the streak is already at least 3, and
leaves the streak unchanged; below 3 it merely increments the streak;
a non-exceeding cycle resets the streak to 0.  Starting from streak 0 it
therefore takes 4 consecutive exceeding cycles to raise the rate (3 do
not), and a single spike right after a non-exceeding cycle never raises
the rate. -/
theorem claim1_rate_adaptation (rate : ℚ) (broken : Nat) (d e : ℚ) :
    (rate < 100 * d → 3 ≤ broken → rateUpdate rate broken d = (100 * d + 1 / 2, broken)) ∧
    (rate < 100 * d → broken < 3 → rateUpdate rate broken d = (rate, broken + 1)) ∧
    (100 * d ≤ rate → rateUpdate rate broken d = (rate, 0)) ∧
    (rate < 100 * d → rateIter d 3 (rate, 0) = (rate, 3)) ∧
    (rate < 100 * d → rateIter d 4 (rate, 0) = (100 * d + 1 / 2, 3)) ∧
    (100 * e ≤ rate → rate < 100 * d →
      (rateUpdate (rateUpdate rate broken e).1 (rateUpdate rate broken e).2 d).1 = rate) := by
  refine ⟨fun h h3 => ?_, fun h h3 => ?_, fun h => ?_, fun h => ?_, fun h => ?_,
          fun he h => ?_⟩
  · simp [rateUpdate, h, h3]
  · simp [rateUpdate, h, Nat.not_le.mpr h3]
  · simp [rateUpdate, not_lt.mpr h]
  · simp [rateIter, rateUpdate, h]
  · simp [rateIter, rateUpdate, h]
  · simp [rateUpdate, not_lt.mpr he, h]

/-- Witness for claim C1 at concrete inputs. -/
theorem claim1_witness :
    rateUpdate 5 3 1 = (100 * 1 + 1 / 2, 3) ∧
    rateUpdate 5 0 1 = (5, 0 + 1) ∧
    rateUpdate 5 2 (1 / 100) = (5, 0) ∧
    rateIter 1 3 ((5 : ℚ), 0) = (5, 3) ∧
    rateIter 1 4 ((5 : ℚ), 0) = (100 * 1 + 1 / 2, 3) ∧
    (rateUpdate (rateUpdate 5 1 (1 / 100)).1 (rateUpdate 5 1 (1 / 100)).2 1).1 = 5 := by
  have h := claim1_rate_adaptation 5 3 1 (1 / 100)
  have h0 := claim1_rate_adaptation 5 0 1 (1 / 100)
  have h2 := claim1_rate_adaptation 5 2 (1 / 100) 1
  have h1 := claim1_rate_adaptation 5 1 1 (1 / 100)
  exact ⟨h.1 (by norm_num) (by norm_num),
         h0.2.1 (by norm_num) (by norm_num),
         h2.2.2.1 (by norm_num),
         h0.2.2.2.1 (by norm_num),
         h0.2.2.2.2.1 (by norm_num),
         h1.2.2.2.2.2 (by norm_num) (by norm_num)⟩

/-! ## Control-path lemmas for the loop body -/

theorem runIteration_halt_eq (self : ConnectionResolver) (inp : IterInput)
    (h : self.halt = true) :
    self.runIteration inp = ⟨self, false, false, none⟩ := by
  simp [ConnectionResolver.runIteration, h]

theorem runIteration_sleep_eq (self : ConnectionResolver) (inp : IterInput)
    (hhalt : self.halt = false)
    (h : self.isPaused = true ∨ inp.now - self.lastLookup < self.minWait) :
    self.runIteration inp =
      ⟨self, false, false,
        some (max (1 / 5) (self.minWait - (inp.now - self.lastLookup)))⟩ := by
  simp only [ConnectionResolver.runIteration, hhalt, Bool.false_eq_true, if_false]
  rw [if_pos h]

theorem runIteration_noResolver_eq (self : ConnectionResolver) (inp : IterInput)
    (hhalt : self.halt = false) (hp : self.isPaused = false)
    (hw : self.minWait ≤ inp.now - self.lastLookup)
    (hsel : (if self.overwriteResolver.isNone then self.defaultResolver
             else self.overwriteResolver) = none) :
    self.runIteration inp =
      ⟨{ self with lastLookup := inp.now }, false, false, none⟩ := by
  simp only [ConnectionResolver.runIteration, hhalt, Bool.false_eq_true, if_false]
  rw [if_neg (by simp [hp, not_lt.mpr hw]), hsel]

theorem runIteration_exec_eq (self : ConnectionResolver) (inp : IterInput) (r : Nat)
    (hhalt : self.halt = false) (hp : self.isPaused = false)
    (hw : self.minWait ≤ inp.now - self.lastLookup)
    (hsel : (if self.overwriteResolver.isNone then self.defaultResolver
             else self.overwriteResolver) = some r) :
    self.runIteration inp =
      match getConnections r self.processName self.processPid inp.execResult with
      | CallResult.ok conns =>
        ⟨{ self with
             connections := conns
             defaultRate := (rateUpdate self.defaultRate self.rateThresholdBroken inp.duration).1
             rateThresholdBroken := (rateUpdate self.defaultRate self.rateThresholdBroken inp.duration).2
             subsiquentFailures :=
               if self.overwriteResolver.isNone then 0 else self.subsiquentFailures
             lastLookup := inp.endTime }, true, false, none⟩
      | CallResult.ioError =>
        ⟨{ (if self.overwriteResolver.isNone then self.handleDefaultFailure r else self) with
             lastLookup := inp.endTime }, true, false, none⟩
      | CallResult.crash =>
        ⟨{ self with lastLookup := inp.endTime }, true, true, none⟩ := by
  simp only [ConnectionResolver.runIteration, hhalt, Bool.false_eq_true, if_false]
  rw [if_neg (by simp [hp, not_lt.mpr hw]), hsel]
  cases hres : getConnections r self.processName self.processPid inp.execResult with
  | ok conns => cases hov : self.overwriteResolver.isNone <;> simp [hres, hov]
  | ioError => cases hov : self.overwriteResolver.isNone <;> simp [hres, hov]
  | crash => simp [hres]

/-! ## Claim C2 -/

theorem pickNewResolver_eq_find (blacklist : List Nat) (l : List Nat) :
    pickNewResolver blacklist l = l.find? (fun k => !(blacklist.contains k)) := by
  induction l with
  | nil => rfl
  | cons r rest ih =>
    by_cases h : r ∈ blacklist <;>
      simp [pickNewResolver, List.find?_cons, h, ih]

/-- Claim C2 (confirmed): when the consecutive default-path failure
counter reaches 3 the current default kind is appended to the
blacklist, the counter resets to 0, and the new default is the first
catalog kind (in the fixed per-OS catalog order) not in the blacklist;
below 3 only the counter advances; an override selection never touches
the counter or the blacklist. -/
theorem claim2_failover (self : ConnectionResolver) (inp : IterInput) (r o : Nat) :
    (self.halt = false → self.isPaused = false →
     self.minWait ≤ inp.now - self.lastLookup →
     self.overwriteResolver = none → self.defaultResolver = some r →
     getConnections r self.processName self.processPid inp.execResult = CallResult.ioError →
     ((3 ≤ self.subsiquentFailures + 1 →
        (self.runIteration inp).state.resolverBlacklist = self.resolverBlacklist ++ [r] ∧
        (self.runIteration inp).state.subsiquentFailures = 0 ∧
        (self.runIteration inp).state.defaultResolver =
          self.resolverOptions.find? (fun k => !((self.resolverBlacklist ++ [r]).contains k))) ∧
      (self.subsiquentFailures + 1 < 3 →
        (self.runIteration inp).state.resolverBlacklist = self.resolverBlacklist ∧
        (self.runIteration inp).state.subsiquentFailures = self.subsiquentFailures + 1 ∧
        (self.runIteration inp).state.defaultResolver = self.defaultResolver))) ∧
    (self.halt = false → self.isPaused = false →
     self.minWait ≤ inp.now - self.lastLookup →
     self.overwriteResolver = some o →
     getConnections o self.processName self.processPid inp.execResult = CallResult.ioError →
     (self.runIteration inp).state.subsiquentFailures = self.subsiquentFailures ∧
     (self.runIteration inp).state.resolverBlacklist = self.resolverBlacklist ∧
     (self.runIteration inp).state.defaultResolver = self.defaultResolver) := by
  constructor
  · intro hhalt hp hw hov hdef hfail
    rw [runIteration_exec_eq self inp r hhalt hp hw (by simp [hov, hdef]), hfail]
    constructor
    · intro h3
      simp [hov, ConnectionResolver.handleDefaultFailure,
            RESOLVER_FAILURE_TOLERANCE, h3, pickNewResolver_eq_find]
    · intro h3
      simp [hov, ConnectionResolver.handleDefaultFailure,
            RESOLVER_FAILURE_TOLERANCE, Nat.not_le.mpr h3]
  · intro hhalt hp hw hov hfail
    rw [runIteration_exec_eq self inp o hhalt hp hw (by simp [hov]), hfail]
    simp [hov]

/-- Witness for claim C2: a third consecutive netstat failure on the
default path blacklists netstat and fails over to sockstat; the same
failure under an override changes nothing. -/
theorem claim2_witness :
    (({ baseResolver with subsiquentFailures := 2 } : ConnectionResolver).runIteration
        ⟨10, 1, none, 11⟩).state.resolverBlacklist = [CMD_NETSTAT] ∧
    (({ baseResolver with subsiquentFailures := 2 } : ConnectionResolver).runIteration
        ⟨10, 1, none, 11⟩).state.subsiquentFailures = 0 ∧
    (({ baseResolver with subsiquentFailures := 2 } : ConnectionResolver).runIteration
        ⟨10, 1, none, 11⟩).state.defaultResolver = some CMD_SOCKSTAT ∧
    (({ baseResolver with overwriteResolver := some CMD_NETSTAT } : ConnectionResolver).runIteration
        ⟨10, 1, none, 11⟩).state.subsiquentFailures = 0 ∧
    (({ baseResolver with overwriteResolver := some CMD_NETSTAT } : ConnectionResolver).runIteration
        ⟨10, 1, none, 11⟩).state.resolverBlacklist = [] ∧
    (({ baseResolver with overwriteResolver := some CMD_NETSTAT } : ConnectionResolver).runIteration
        ⟨10, 1, none, 11⟩).state.defaultResolver = some CMD_NETSTAT := by
  have h := (claim2_failover { baseResolver with subsiquentFailures := 2 }
      ⟨10, 1, none, 11⟩ CMD_NETSTAT CMD_NETSTAT).1 rfl rfl
      (by norm_num [ConnectionResolver.minWait, baseResolver]) rfl rfl rfl
  have h3 := h.1 (by norm_num)
  have ho := (claim2_failover { baseResolver with overwriteResolver := some CMD_NETSTAT }
      ⟨10, 1, none, 11⟩ CMD_NETSTAT CMD_NETSTAT).2 rfl rfl
      (by norm_num [ConnectionResolver.minWait, baseResolver]) rfl rfl
  exact ⟨h3.1, h3.2.1, h3.2.2.trans rfl, ho.1, ho.2.1, ho.2.2⟩

/-! ## Claim C3 -/

theorem parseLines_crash (resolutionCmd : Nat) (lines : List String)
    (h : ∃ l ∈ lines, parseConnLine resolutionCmd l = none) :
    ∀ acc, parseLines resolutionCmd lines acc = CallResult.crash := by
  induction lines with
  | nil => simp at h
  | cons l rest ih =>
    intro acc
    rcases h with ⟨x, hx, hpx⟩
    rcases List.mem_cons.mp hx with rfl | hx2
    · simp [parseLines, hpx]
    · cases hpl : parseConnLine resolutionCmd l with
      | none => simp [parseLines, hpl]
      | some t => simpa [parseLines, hpl] using ih ⟨x, hx2, hpx⟩ (t :: acc)

theorem parseLines_ok (resolutionCmd : Nat) (lines : List String)
    (h : ∀ l ∈ lines, (parseConnLine resolutionCmd l).isSome) :
    ∀ acc, parseLines resolutionCmd lines acc =
      CallResult.ok (acc.reverse ++ lines.filterMap (parseConnLine resolutionCmd)) := by
  induction lines with
  | nil => intro acc; simp [parseLines]
  | cons l rest ih =>
    intro acc
    rcases Option.isSome_iff_exists.mp (h l (by simp)) with ⟨t, ht⟩
    have ihr := ih (fun x hx => h x (by simp [hx])) (t :: acc)
    simp only [parseLines, ht, ihr, List.filterMap_cons]
    simp [ht, List.append_assoc]

/-- Claim C3 counterexample: a netstat result containing one
well-formed line and one malformed line makes the whole call raise an
uncaught exception — the malformed line is not skipped and the parsed
line is lost, contradicting the claim that bad lines are skipped
individually and the call fails only when every line fails. -/
theorem claim3_counterexample :
    parseConnLine CMD_NETSTAT sampleNetstatLine = some sampleTuple ∧
    parseConnLine CMD_NETSTAT "bogus" = none ∧
    getConnections CMD_NETSTAT "tor" "9912" (some [sampleNetstatLine, "bogus"]) =
      CallResult.crash ∧
    CallResult.crash ≠ CallResult.ok [sampleTuple] := by
  exact ⟨rfl, rfl, rfl, by decide⟩

/-- Claim C3 (corrected): a returned line that does not parse under the
kind's column rule aborts the whole call with an uncaught exception
(crash), even when other lines parse; the call returns the parsed
tuples only when every returned line parses. -/
theorem claim3_malformed_crash (resolutionCmd : Nat)
    (processName processPid cmdStr : String) (lines : List String)
    (hcmd : getResolverCommand resolutionCmd processName processPid = Except.ok cmdStr) :
    ((∃ l ∈ lines, parseConnLine resolutionCmd l = none) →
      getConnections resolutionCmd processName processPid (some lines) =
        CallResult.crash) ∧
    (lines ≠ [] → (∀ l ∈ lines, (parseConnLine resolutionCmd l).isSome) →
      getConnections resolutionCmd processName processPid (some lines) =
        CallResult.ok (lines.filterMap (parseConnLine resolutionCmd))) := by
  constructor
  · intro h
    have hne : lines ≠ [] := by rintro rfl; simp at h
    simp [getConnections, hcmd, hne, parseLines_crash resolutionCmd lines h []]
  · intro hne hall
    simpa [getConnections, hcmd, hne] using parseLines_ok resolutionCmd lines hall []

/-- Witness for claim C3 at concrete inputs. -/
theorem claim3_witness :
    getConnections CMD_NETSTAT "tor" "9912" (some [sampleNetstatLine, "bogus"]) =
      CallResult.crash ∧
    getConnections CMD_NETSTAT "tor" "9912" (some [sampleNetstatLine]) =
      CallResult.ok [sampleTuple] := by
  constructor
  · exact (claim3_malformed_crash CMD_NETSTAT "tor" "9912" _
      [sampleNetstatLine, "bogus"] rfl).1 ⟨"bogus", by simp, rfl⟩
  · have h := (claim3_malformed_crash CMD_NETSTAT "tor" "9912" _
      [sampleNetstatLine] rfl).2 (by simp)
      (fun l hl => by rcases List.mem_singleton.mp hl with rfl; decide)
    exact h.trans (by decide)

/-! ## Structural invariants of one iteration -/

theorem runIteration_preserves (self : ConnectionResolver) (inp : IterInput) :
    (self.runIteration inp).state.overwriteResolver = self.overwriteResolver ∧
    (self.runIteration inp).state.processName = self.processName ∧
    (self.runIteration inp).state.processPid = self.processPid ∧
    (self.runIteration inp).state.resolverOptions = self.resolverOptions ∧
    (self.runIteration inp).state.halt = self.halt ∧
    (∃ t, (self.runIteration inp).state.resolverBlacklist = self.resolverBlacklist ++ t) := by
  by_cases hh : self.halt = true
  · rw [runIteration_halt_eq self inp hh]
    exact ⟨rfl, rfl, rfl, rfl, rfl, [], by simp⟩
  · have hh2 : self.halt = false := by simpa using hh
    by_cases hs : self.isPaused = true ∨ inp.now - self.lastLookup < self.minWait
    · rw [runIteration_sleep_eq self inp hh2 hs]
      exact ⟨rfl, rfl, rfl, rfl, rfl, [], by simp⟩
    · have hp : self.isPaused = false := by
        cases hP : self.isPaused
        · rfl
        · exact absurd (Or.inl hP) hs
      have hw : self.minWait ≤ inp.now - self.lastLookup :=
        not_lt.mp (fun hlt => hs (Or.inr hlt))
      cases hsel : (if self.overwriteResolver.isNone then self.defaultResolver
                    else self.overwriteResolver) with
      | none =>
        rw [runIteration_noResolver_eq self inp hh2 hp hw hsel]
        exact ⟨rfl, rfl, rfl, rfl, rfl, [], by simp⟩
      | some r =>
        rw [runIteration_exec_eq self inp r hh2 hp hw hsel]
        cases hres : getConnections r self.processName self.processPid inp.execResult with
        | ok conns => exact ⟨rfl, rfl, rfl, rfl, rfl, [], by simp⟩
        | ioError =>
          by_cases hov : self.overwriteResolver.isNone
          · by_cases h3 : RESOLVER_FAILURE_TOLERANCE ≤ self.subsiquentFailures + 1
            · refine ⟨?_, ?_, ?_, ?_, ?_, [r], ?_⟩ <;>
                simp [hov, ConnectionResolver.handleDefaultFailure, h3]
            · refine ⟨?_, ?_, ?_, ?_, ?_, [], ?_⟩ <;>
                simp [hov, ConnectionResolver.handleDefaultFailure, h3]
          · refine ⟨?_, ?_, ?_, ?_, ?_, [], ?_⟩ <;> simp [hov]
        | crash => exact ⟨rfl, rfl, rfl, rfl, rfl, [], by simp⟩

theorem runIteration_noDefault (self : ConnectionResolver) (inp : IterInput)
    (hov : self.overwriteResolver = none) (hdef : self.defaultResolver = none) :
    ((self.runIteration inp).state = self ∨
     (self.runIteration inp).state = { self with lastLookup := inp.now }) ∧
    (self.runIteration inp).executed = false ∧
    (self.runIteration inp).crashed = false := by
  by_cases hh : self.halt = true
  · rw [runIteration_halt_eq self inp hh]; exact ⟨Or.inl rfl, rfl, rfl⟩
  · have hh2 : self.halt = false := by simpa using hh
    by_cases hs : self.isPaused = true ∨ inp.now - self.lastLookup < self.minWait
    · rw [runIteration_sleep_eq self inp hh2 hs]; exact ⟨Or.inl rfl, rfl, rfl⟩
    · have hp : self.isPaused = false := by
        cases hP : self.isPaused
        · rfl
        · exact absurd (Or.inl hP) hs
      have hw : self.minWait ≤ inp.now - self.lastLookup :=
        not_lt.mp (fun hlt => hs (Or.inr hlt))
      rw [runIteration_noResolver_eq self inp hh2 hp hw (by simp [hov, hdef])]
      exact ⟨Or.inr rfl, rfl, rfl⟩

theorem runTrace_noDefault (inps : List IterInput) :
    ∀ self : ConnectionResolver,
      self.overwriteResolver = none → self.defaultResolver = none →
      (runTrace self inps).defaultResolver = none ∧
      (runTrace self inps).connections = self.connections := by
  induction inps with
  | nil => intro self _ hdef; exact ⟨hdef, rfl⟩
  | cons i is ih =>
    intro self hov hdef
    obtain ⟨hor, _, hcr⟩ := runIteration_noDefault self i hov hdef
    simp only [runTrace, hcr, Bool.false_eq_true, if_false]
    rcases hor with h1 | h1 <;> rw [h1]
    · exact ih self hov hdef
    · exact ih { self with lastLookup := i.now } hov hdef

/-! ## Claim C4 -/

/-- Claim C4 (confirmed): with no override, once the default selection
is none (all catalog kinds blacklisted) every loop iteration leaves the
default none, executes no command, leaves the cache and blacklist
untouched and at most records the attempt timestamp; this persists over
any sequence of iterations regardless of what the lookups would have
returned, and no iteration ever removes kinds from the blacklist. -/
theorem claim4_all_blacklisted (self : ConnectionResolver) (inp : IterInput)
    (inps : List IterInput) :
    (self.overwriteResolver = none → self.defaultResolver = none →
      (self.runIteration inp).state.defaultResolver = none ∧
      (self.runIteration inp).executed = false ∧
      (self.runIteration inp).state.connections = self.connections ∧
      (self.runIteration inp).state.resolverBlacklist = self.resolverBlacklist ∧
      ((self.runIteration inp).state = self ∨
       (self.runIteration inp).state = { self with lastLookup := inp.now })) ∧
    (∃ t, (self.runIteration inp).state.resolverBlacklist = self.resolverBlacklist ++ t) ∧
    (self.overwriteResolver = none → self.defaultResolver = none →
      (runTrace self inps).defaultResolver = none ∧
      (runTrace self inps).connections = self.connections) := by
  refine ⟨fun hov hdef => ?_, (runIteration_preserves self inp).2.2.2.2.2,
          fun hov hdef => runTrace_noDefault inps self hov hdef⟩
  obtain ⟨hor, hex, _⟩ := runIteration_noDefault self inp hov hdef
  rcases hor with h1 | h1
  · exact ⟨by rw [h1]; exact hdef, hex, by rw [h1], by rw [h1], Or.inl h1⟩
  · exact ⟨by rw [h1]; exact hdef, hex, by rw [h1], by rw [h1], Or.inr h1⟩

/-- Witness for claim C4: all four Linux kinds blacklisted, default
none; an iteration whose command result would have parsed successfully
still executes nothing, and two further iterations keep the default
none and the cache frozen. -/
theorem claim4_witness :
    (exhaustedResolver.runIteration ⟨10, 1, some [sampleNetstatLine], 11⟩).executed =
      false ∧
    (runTrace exhaustedResolver
        [⟨10, 1, some [sampleNetstatLine], 11⟩,
         ⟨20, 1, some [sampleNetstatLine], 21⟩]).defaultResolver = none ∧
    (runTrace exhaustedResolver
        [⟨10, 1, some [sampleNetstatLine], 11⟩,
         ⟨20, 1, some [sampleNetstatLine], 21⟩]).connections = [] := by
  have h := claim4_all_blacklisted exhaustedResolver
      ⟨10, 1, some [sampleNetstatLine], 11⟩
      [⟨10, 1, some [sampleNetstatLine], 11⟩, ⟨20, 1, some [sampleNetstatLine], 21⟩]
  exact ⟨(h.1 rfl rfl).2.1, (h.2.2 rfl rfl).1, (h.2.2 rfl rfl).2⟩

/-! ## Claim C5 -/

theorem runIteration_connections (self : ConnectionResolver) (inp : IterInput) :
    (self.runIteration inp).state.connections = self.connections ∨
    ∃ r conns,
      (if self.overwriteResolver.isNone then self.defaultResolver
       else self.overwriteResolver) = some r ∧
      getConnections r self.processName self.processPid inp.execResult =
        CallResult.ok conns ∧
      (self.runIteration inp).state.connections = conns := by
  by_cases hh : self.halt = true
  · rw [runIteration_halt_eq self inp hh]; exact Or.inl rfl
  · have hh2 : self.halt = false := by simpa using hh
    by_cases hs : self.isPaused = true ∨ inp.now - self.lastLookup < self.minWait
    · rw [runIteration_sleep_eq self inp hh2 hs]; exact Or.inl rfl
    · have hp : self.isPaused = false := by
        cases hP : self.isPaused
        · rfl
        · exact absurd (Or.inl hP) hs
      have hw : self.minWait ≤ inp.now - self.lastLookup :=
        not_lt.mp (fun hlt => hs (Or.inr hlt))
      cases hsel : (if self.overwriteResolver.isNone then self.defaultResolver
                    else self.overwriteResolver) with
      | none => rw [runIteration_noResolver_eq self inp hh2 hp hw hsel]; exact Or.inl rfl
      | some r =>
        rw [runIteration_exec_eq self inp r hh2 hp hw hsel]
        cases hres : getConnections r self.processName self.processPid inp.execResult with
        | ok conns => exact Or.inr ⟨r, conns, rfl, hres, rfl⟩
        | ioError =>
          left
          by_cases hov : self.overwriteResolver.isNone <;>
            simp [hov, ConnectionResolver.handleDefaultFailure] <;>
            by_cases h3 : RESOLVER_FAILURE_TOLERANCE ≤ self.subsiquentFailures + 1 <;>
            simp [h3]
        | crash => exact Or.inl rfl

theorem runTrace_connections (inps : List IterInput) :
    ∀ self : ConnectionResolver,
      (runTrace self inps).connections = self.connections ∨
      ∃ inp2 ∈ inps, ∃ r,
        getConnections r self.processName self.processPid inp2.execResult =
          CallResult.ok ((runTrace self inps).connections) := by
  induction inps with
  | nil => intro self; exact Or.inl rfl
  | cons i is ih =>
    intro self
    obtain ⟨hov, hname, hpid, -⟩ := runIteration_preserves self i
    by_cases hcr : (self.runIteration i).crashed = true
    · simp only [runTrace, hcr, if_true]
      rcases runIteration_connections self i with h | ⟨r, conns, _, hres, hconn⟩
      · exact Or.inl h
      · exact Or.inr ⟨i, by simp, r, by rw [hconn]; exact hres⟩
    · have hcr2 : (self.runIteration i).crashed = false := by simpa using hcr
      simp only [runTrace, hcr2, Bool.false_eq_true, if_false]
      rcases ih (self.runIteration i).state with h | ⟨inp2, hin, r, hok⟩
      · rcases runIteration_connections self i with h2 | ⟨r, conns, _, hres, hconn⟩
        · exact Or.inl (h.trans h2)
        · exact Or.inr ⟨i, by simp, r, by rw [h, hconn]; exact hres⟩
      · rw [hname, hpid] at hok
        exact Or.inr ⟨inp2, List.mem_cons_of_mem i hin, r, hok⟩

/-- Claim C5 (confirmed): an iteration whose lookup does not return a
successfully parsed result leaves the cached list exactly as it was;
the cache only ever changes by being replaced, whole, with the parsed
list of a successful lookup; hence over any run from a fresh resolver
the cache is either the initial empty list or the complete output of
some successful lookup of the run. -/
theorem claim5_cache_atomicity (self : ConnectionResolver) (inp : IterInput)
    (processName processPid : String) (resolveRate : Option ℚ) (osType : String)
    (available : String → Bool) (inps : List IterInput) :
    (∀ r, (if self.overwriteResolver.isNone then self.defaultResolver
           else self.overwriteResolver) = some r →
      getConnections r self.processName self.processPid inp.execResult =
        CallResult.ioError →
      (self.runIteration inp).state.connections = self.connections) ∧
    ((self.runIteration inp).state.connections = self.connections ∨
      ∃ r conns,
        (if self.overwriteResolver.isNone then self.defaultResolver
         else self.overwriteResolver) = some r ∧
        getConnections r self.processName self.processPid inp.execResult =
          CallResult.ok conns ∧
        (self.runIteration inp).state.connections = conns) ∧
    ((runTrace (initState processName processPid resolveRate osType available)
        inps).connections = [] ∨
      ∃ inp2 ∈ inps, ∃ r,
        getConnections r processName processPid inp2.execResult =
          CallResult.ok
            ((runTrace (initState processName processPid resolveRate osType available)
                inps).connections)) := by
  refine ⟨fun r hsel hres => ?_, runIteration_connections self inp, ?_⟩
  · rcases runIteration_connections self inp with h | ⟨r2, conns, hsel2, hres2, hconn⟩
    · exact h
    · rw [hsel] at hsel2
      cases Option.some.inj hsel2
      rw [hres] at hres2
      exact absurd hres2 (by simp)
  · rcases runTrace_connections inps
        (initState processName processPid resolveRate osType available) with h | h
    · exact Or.inl (h.trans rfl)
    · exact Or.inr h

/-- Witness for claim C5: a failed lookup (the command raised an
IOError) leaves a populated cache untouched. -/
theorem claim5_witness :
    (({ baseResolver with connections := [sampleTuple] } :
        ConnectionResolver).runIteration ⟨10, 1, none, 11⟩).state.connections =
      [sampleTuple] := by
  have h := (claim5_cache_atomicity
      { baseResolver with connections := [sampleTuple] } ⟨10, 1, none, 11⟩
      "tor" "123" none "Linux" (fun _ => true) []).1 CMD_NETSTAT rfl rfl
  exact h

/-! ## Claim C10 -/

/-- Claim C10 counterexample: a genuine pause-state change (the flag
flips from false to true) notifies no condition variable — only stop
does — so a sleeping loop is not interruptible by a pause-state change,
contradicting the claim that both stop and pause changes interrupt the
sleep immediately. -/
theorem claim10_counterexample :
    (baseResolver.setPaused true).1.isPaused = true ∧
    (baseResolver.setPaused true).2 = false ∧
    (baseResolver.stop).2 = true := by
  exact ⟨rfl, rfl, rfl⟩

/-- Claim C10 (corrected): a sleeping iteration sleeps for
max(0.2, wait target − elapsed) and executes nothing; stop sets the
halt flag and signals the condition variable, waking the sleep
immediately; a pause-state change only writes the flag and signals
nothing, so it takes effect only when the current sleep expires. -/
theorem claim10_sleep_behavior (self : ConnectionResolver) (inp : IterInput)
    (isPause : Bool) :
    (self.halt = false →
      (self.isPaused = true ∨ inp.now - self.lastLookup < self.minWait) →
      (self.runIteration inp).sleptFor =
        some (max (1 / 5) (self.minWait - (inp.now - self.lastLookup))) ∧
      (self.runIteration inp).executed = false) ∧
    ((self.stop).2 = true ∧ (self.stop).1.halt = true) ∧
    ((self.setPaused isPause).2 = false) := by
  refine ⟨fun hhalt hs => ?_, ⟨rfl, rfl⟩, ?_⟩
  · rw [runIteration_sleep_eq self inp hhalt hs]
    exact ⟨rfl, rfl⟩
  · unfold ConnectionResolver.setPaused
    split <;> rfl

/-- Witness for claim C10: two seconds after a lookup with a 5-second
wait target, the loop sleeps for 3 seconds and runs no command. -/
theorem claim10_witness :
    (({ baseResolver with lastLookup := 8 } : ConnectionResolver).runIteration
        ⟨10, 1, none, 11⟩).sleptFor = some 3 ∧
    (({ baseResolver with lastLookup := 8 } : ConnectionResolver).runIteration
        ⟨10, 1, none, 11⟩).executed = false := by
  have h := (claim10_sleep_behavior { baseResolver with lastLookup := 8 }
      ⟨10, 1, none, 11⟩ true).1 rfl
      (Or.inr (by norm_num [ConnectionResolver.minWait, baseResolver]))
  refine ⟨(h.1).trans ?_, h.2⟩
  have hm : ({ baseResolver with lastLookup := 8 } :
      ConnectionResolver).minWait = 5 := rfl
  rw [hm]
  norm_num

/-! ## Registry lemmas -/

theorem findLoop_append_none (processName processPid : String) (recreate : Bool)
    (l1 l2 : List ResolverEntry)
    (h : findLoop processName processPid recreate l1 = none) :
    findLoop processName processPid recreate (l1 ++ l2) =
      findLoop processName processPid recreate l2 := by
  induction l1 with
  | nil => simp
  | cons a rest ih =>
    cases hm : resolverMatches processName processPid a <;>
      cases hhrc : a.halt && recreate <;>
      simp [findLoop, hm, hhrc] at h ⊢ <;>
      exact ih h

theorem findLoop_none_halt (processName processPid : String)
    (l : List ResolverEntry)
    (h : findLoop processName processPid true l = none) :
    ∀ r ∈ l, resolverMatches processName processPid r = true → r.halt = true := by
  induction l with
  | nil => simp
  | cons a rest ih =>
    intro r hr hm
    rcases List.mem_cons.mp hr with rfl | hr2
    · cases hha : r.halt
      · simp [findLoop, hm, hha] at h
      · rfl
    · cases hma : resolverMatches processName processPid a <;>
        cases hha : a.halt <;>
        simp [findLoop, hma, hha] at h <;>
        exact ih h r hr2 hm

theorem findLoop_skips_halted (processName processPid : String)
    (newR : ResolverEntry)
    (hmn : resolverMatches processName processPid newR = true)
    (hhn : newR.halt = false) :
    ∀ l l2 : List ResolverEntry,
      (∀ r ∈ l, resolverMatches processName processPid r = true → r.halt = true) →
      findLoop processName processPid true (l ++ newR :: l2) = some newR := by
  intro l
  induction l with
  | nil => intro l2 _; simp [findLoop, hmn, hhn]
  | cons a rest ih =>
    intro l2 hall
    cases hma : resolverMatches processName processPid a
    · simpa [findLoop, hma] using ih l2 (fun r hr hm => hall r (by simp [hr]) hm)
    · have hha : a.halt = true := hall a (by simp) hma
      simpa [findLoop, hma, hha] using ih l2 (fun r hr hm => hall r (by simp [hr]) hm)

theorem replaceLastHalted_decomp (processName processPid : String)
    (newR : ResolverEntry) :
    ∀ (l res : List ResolverEntry),
      replaceLastHalted processName processPid newR l = some res →
      ∃ l1 old l2, l = l1 ++ old :: l2 ∧ res = l1 ++ newR :: l2 := by
  intro l
  induction l with
  | nil => intro res h; simp [replaceLastHalted] at h
  | cons a rest ih =>
    intro res h
    simp only [replaceLastHalted] at h
    cases hrep : replaceLastHalted processName processPid newR rest with
    | some rest2 =>
      rw [hrep] at h
      obtain ⟨l1, old, l2, hl, hres⟩ := ih rest2 hrep
      cases h
      exact ⟨a :: l1, old, l2, by simp [hl], by simp [hres]⟩
    | none =>
      rw [hrep] at h
      by_cases hcond : resolverMatches processName processPid a && a.halt
      · rw [if_pos hcond] at h
        cases h
        exact ⟨[], a, rest, rfl, rfl⟩
      · rw [if_neg hcond] at h
        cases h

/-! ## Claim C9 -/

/-- Claim C9 (confirmed): a repeat getResolver call with the same
arguments returns the identical instance; from a fresh key the first
call creates and registers a started (non-halted) instance; after
stopping it, a repeat call returns the same (now halted) instance when
recreation of halted resolvers is disabled — which is the default — and
a newly created instance only when it is enabled; an empty requested
pid matches a resolver with any pid. -/
theorem claim9_registry (reg : List ResolverEntry) (processName processPid : String)
    (recreate : Bool) (f1 f2 : Nat) (e : ResolverEntry) :
    ((getResolver processName processPid recreate f2
        (getResolver processName processPid recreate f1 reg).2).1 =
      (getResolver processName processPid recreate f1 reg).1) ∧
    ((getResolver processName processPid false f1 []).1 =
      ⟨processName, processPid, false, f1⟩) ∧
    ((getResolver processName processPid false f2
        (haltResolver f1 (getResolver processName processPid false f1 []).2)).1 =
      ⟨processName, processPid, true, f1⟩) ∧
    ((getResolver processName processPid true f2
        (haltResolver f1 (getResolver processName processPid false f1 []).2)).1 =
      ⟨processName, processPid, false, f2⟩) ∧
    (RECREATE_HALTED_RESOLVERS = false) ∧
    (e.processName = processName →
      (getResolver processName "" false f2 (e :: reg)).1 = e) := by
  refine ⟨?_, rfl, ?_, ?_, rfl, fun he => ?_⟩
  · cases hf : findLoop processName processPid recreate reg with
    | some r => simp [getResolver, hf]
    | none =>
      have hmn : resolverMatches processName processPid
          ⟨processName, processPid, false, f1⟩ = true := by
        simp [resolverMatches]
      cases recreate with
      | false =>
        have h2 : findLoop processName processPid false
            (reg ++ [⟨processName, processPid, false, f1⟩]) =
            some ⟨processName, processPid, false, f1⟩ := by
          rw [findLoop_append_none _ _ _ _ _ hf]
          simp [findLoop, hmn]
        simp [getResolver, hf, h2]
      | true =>
        cases hrep : replaceLastHalted processName processPid
            ⟨processName, processPid, false, f1⟩ reg with
        | none =>
          have h2 : findLoop processName processPid true
              (reg ++ [⟨processName, processPid, false, f1⟩]) =
              some ⟨processName, processPid, false, f1⟩ := by
            rw [findLoop_append_none _ _ _ _ _ hf]
            simp [findLoop, hmn]
          simp [getResolver, hf, hrep, h2]
        | some reg2 =>
          obtain ⟨l1, old, l2, hl, hres⟩ :=
            replaceLastHalted_decomp _ _ _ reg reg2 hrep
          have hall := findLoop_none_halt processName processPid reg hf
          have h2 : findLoop processName processPid true reg2 =
              some ⟨processName, processPid, false, f1⟩ := by
            rw [hres]
            exact findLoop_skips_halted _ _ _ hmn rfl l1 l2
              (fun r hr hm => hall r (by rw [hl]; exact List.mem_append_left _ hr) hm)
          simp [getResolver, hf, hrep, h2]
  · simp [getResolver, haltResolver, findLoop, resolverMatches]
  · simp [getResolver, haltResolver, findLoop, resolverMatches, replaceLastHalted]
  · simp [getResolver, findLoop, resolverMatches, he]

/-- Witness for claim C9 at concrete inputs. -/
theorem claim9_witness :
    ((getResolver "tor" "123" false 1 (getResolver "tor" "123" false 0 []).2).1 =
      (getResolver "tor" "123" false 0 []).1) ∧
    ((getResolver "tor" "123" false 0 []).1 = ⟨"tor", "123", false, 0⟩) ∧
    ((getResolver "tor" "123" false 1
        (haltResolver 0 (getResolver "tor" "123" false 0 []).2)).1 =
      ⟨"tor", "123", true, 0⟩) ∧
    ((getResolver "tor" "123" true 1
        (haltResolver 0 (getResolver "tor" "123" false 0 []).2)).1 =
      ⟨"tor", "123", false, 1⟩) ∧
    ((getResolver "tor" "" false 5 [⟨"tor", "999", false, 7⟩]).1 =
      ⟨"tor", "999", false, 7⟩) := by
  have h := claim9_registry [] "tor" "123" false 0 1 ⟨"tor", "999", false, 7⟩
  have h2 := claim9_registry [] "tor" "123" true 0 1 ⟨"tor", "999", false, 7⟩
  have h3 := claim9_registry [] "tor" "" false 7 5 ⟨"tor", "999", false, 7⟩
  exact ⟨h.1, h.2.1, h.2.2.1, h2.2.2.2.1, h3.2.2.2.2.2 rfl⟩
